import Mathlib

/-!
Verification of the magnifier coordinate transform and the AR session
lifecycle of the portfolio application.

The magnifier math comes from `src/app/filmscanning/page.tsx`
(`getMagnifyParams`, `updateDimensions`); the AR lifecycle comes from
`src/app/blog/page.tsx` (`endARSession`, `launchAR`, the select handler
and the fallback timer).  JavaScript numbers are modelled as rationals
(all operations involved are field operations, `min`, `max` and
`Math.floor`), JavaScript `null`/`undefined` as `Option`, and the
JavaScript falsy-default idiom `v || d` on numbers as a zero test.
-/

/-- An `HTMLImageElement` handle as the transform sees it: only its
`width`/`height` properties are read.  Structural equality models the
JavaScript identity test `image !== referenceImage`: two handles with
equal dimensions produce identical transform outputs whether or not the
rescale branch is taken, so this is observationally faithful. -/
structure Img where
  width : ℚ
  height : ℚ
deriving DecidableEq

/-- Pointer position in displayed (stage) coordinates, from the source
`interface Position`. -/
structure Position where
  x : ℚ
  y : ℚ
deriving DecidableEq

/-- Pixel dimensions, from the source `interface Dimensions`. -/
structure Dimensions where
  width : ℚ
  height : ℚ
deriving DecidableEq

/-- Output of the transform, from the source `interface MagnifyParams`. -/
structure MagnifyParams where
  x : ℚ
  y : ℚ
  scaleX : ℚ
  scaleY : ℚ
  sourceWidth : ℚ
  sourceHeight : ℚ
  centerX : ℚ
  centerY : ℚ
deriving DecidableEq

/-- The JavaScript numeric default idiom `v || d`: an absent
(`undefined`) or zero value falls back to the default `d`. -/
def jsOrQ (v : Option ℚ) (d : ℚ) : ℚ :=
  match v with
  | none => d
  | some x => if x = 0 then d else x

/-- `referenceImage ? referenceImage.width : image.width`
(line 130 of `filmscanning/page.tsx`). -/
def refWidth (img : Img) (referenceImage : Option Img) : ℚ :=
  match referenceImage with
  | some r => r.width
  | none => img.width

/-- `referenceImage ? referenceImage.height : image.height`
(line 131 of `filmscanning/page.tsx`). -/
def refHeight (img : Img) (referenceImage : Option Img) : ℚ :=
  match referenceImage with
  | some r => r.height
  | none => img.height

/-- `const safeZoomScale = zoomScale || 0.5` (line 124). -/
def safeZoom (zoomScale : Option ℚ) : ℚ := jsOrQ zoomScale (1 / 2)

/-- `const safeStageWidth = stageDimensions?.width || 400` (line 125). -/
def safeStageW (stageDimensions : Option Dimensions) : ℚ :=
  jsOrQ (stageDimensions.map Dimensions.width) 400

/-- `const safeStageHeight = stageDimensions?.height || 300` (line 126). -/
def safeStageH (stageDimensions : Option Dimensions) : ℚ :=
  jsOrQ (stageDimensions.map Dimensions.height) 300

/-- `const safeMagWidth = magDimensions?.width || 400` (line 127). -/
def safeMagW (magDimensions : Option Dimensions) : ℚ :=
  jsOrQ (magDimensions.map Dimensions.width) 400

/-- `const safeMagHeight = magDimensions?.height || 400` (line 128). -/
def safeMagH (magDimensions : Option Dimensions) : ℚ :=
  jsOrQ (magDimensions.map Dimensions.height) 400

/-- `centerX = magnifierPosition.x / (safeStageWidth / referenceWidth)`
(line 134). -/
def centerXval (img : Img) (r : Option Img) (pos : Position)
    (st : Option Dimensions) : ℚ :=
  pos.x / (safeStageW st / refWidth img r)

/-- `centerY = magnifierPosition.y / (safeStageHeight / referenceHeight)`
(line 135). -/
def centerYval (img : Img) (r : Option Img) (pos : Position)
    (st : Option Dimensions) : ℚ :=
  pos.y / (safeStageH st / refHeight img r)

/-- `sourceWidth = safeMagWidth / safeZoomScale` (line 138). -/
def srcWval (mg : Option Dimensions) (z : Option ℚ) : ℚ :=
  safeMagW mg / safeZoom z

/-- `sourceHeight = safeMagHeight / safeZoomScale` (line 139). -/
def srcHval (mg : Option Dimensions) (z : Option ℚ) : ℚ :=
  safeMagH mg / safeZoom z

/-- `sourceX = Math.max(0, Math.min(centerX - sourceWidth / 2,
referenceWidth - sourceWidth))` (line 142). -/
def srcXval (img : Img) (r : Option Img) (pos : Position)
    (st mg : Option Dimensions) (z : Option ℚ) : ℚ :=
  max 0 (min (centerXval img r pos st - srcWval mg z / 2)
    (refWidth img r - srcWval mg z))

/-- `sourceY = Math.max(0, Math.min(centerY - sourceHeight / 2,
referenceHeight - sourceHeight))` (line 143). -/
def srcYval (img : Img) (r : Option Img) (pos : Position)
    (st mg : Option Dimensions) (z : Option ℚ) : ℚ :=
  max 0 (min (centerYval img r pos st - srcHval mg z / 2)
    (refHeight img r - srcHval mg z))

/-- Shallow embedding of `getMagnifyParams`
(`filmscanning/page.tsx` lines 113-170).  Returns `none` exactly on the
`if (!image) return null` guard; otherwise substitutes the documented
defaults for missing or zero optional inputs, maps the pointer into
reference-image coordinates, sizes the sampled region as
`magDimensions / zoomScale`, clamps its top-left corner with
`max 0 (min ...)`, and finally rescales offset and paint scale by
`image.width / referenceWidth` (resp. heights) when the magnified image
is a different handle than the reference image (lines 151-158). -/
def getMagnifyParams (image : Option Img) (referenceImage : Option Img)
    (magnifierPosition : Position) (stageDimensions : Option Dimensions)
    (magDimensions : Option Dimensions) (zoomScale : Option ℚ) :
    Option MagnifyParams :=
  match image with
  | none => none
  | some img =>
    let base : MagnifyParams :=
      { x := srcXval img referenceImage magnifierPosition stageDimensions
          magDimensions zoomScale,
        y := srcYval img referenceImage magnifierPosition stageDimensions
          magDimensions zoomScale,
        scaleX := safeZoom zoomScale, scaleY := safeZoom zoomScale,
        sourceWidth := srcWval magDimensions zoomScale,
        sourceHeight := srcHval magDimensions zoomScale,
        centerX := centerXval img referenceImage magnifierPosition
          stageDimensions,
        centerY := centerYval img referenceImage magnifierPosition
          stageDimensions }
    some (match referenceImage with
      | some r =>
        if img = r then base
        else
          { base with
            x := base.x * (img.width / r.width),
            y := base.y * (img.height / r.height),
            scaleX := safeZoom zoomScale / (img.width / r.width),
            scaleY := safeZoom zoomScale / (img.height / r.height) }
      | none => base)

/-- Shallow embedding of the resize recomputation `updateDimensions`
(`filmscanning/page.tsx` lines 407-418): container width with
`offsetWidth || 400`, natural dimensions with `|| 600` / `|| 400`
fallbacks, and `Math.floor((containerWidth * imgHeight) / imgWidth) || 300`
for the stage height. -/
def updateDimensions (containerWidth : ℚ) (imgDims : Dimensions) : Dimensions :=
  let cw := if containerWidth = 0 then 400 else containerWidth
  let iw := if imgDims.width = 0 then 600 else imgDims.width
  let ih := if imgDims.height = 0 then 400 else imgDims.height
  let fh : ℚ := ((⌊cw * ih / iw⌋ : ℤ) : ℚ)
  let sh := if fh = 0 then 300 else fh
  { width := cw, height := sh }

/-- The created AR rendering canvas; `hasParent` records whether it is
attached to the document (`launchAR` appends every created canvas to
`document.body` before storing it in the ref, so an acquired canvas is
always attached). -/
structure CanvasHandle where
  hasParent : Bool
deriving DecidableEq

/-- The four mutable refs tracked by the AR feature plus the
`arSessionActive` flag (`blog/page.tsx` lines 30, 36-39).  `xrSession`,
`hitTestSource` model `XRSession` / `XRHitTestSource` handles; `frame`
the animation-frame id. -/
structure ARState where
  xrSession : Option Bool
  frame : Option Nat
  canvas : Option CanvasHandle
  hitTestSource : Option Bool
  arSessionActive : Bool
deriving DecidableEq

/-- The component's initial state: no handle acquired, session inactive. -/
def initARState : ARState :=
  { xrSession := none, frame := none, canvas := none,
    hitTestSource := none, arSessionActive := false }

/-- `XRSession.end()`: calling it on a null handle would be a
TypeError, which the guard in `endARSession` prevents. -/
def xrSessionEnd (h : Option Bool) : Except String Unit :=
  match h with
  | some _ => Except.ok ()
  | none => Except.error "TypeError: cannot end null session"

/-- `canvas.parentElement.removeChild(canvas)`: a TypeError on a null
handle and a NotFoundError on a detached node, both prevented by the
`canvasRef.current?.parentElement` guard in `endARSession`. -/
def removeCanvas (c : Option CanvasHandle) : Except String Unit :=
  match c with
  | some ch =>
    if ch.hasParent then Except.ok ()
    else Except.error "NotFoundError: node has no parent"
  | none => Except.error "TypeError: cannot remove null canvas"

/-- `XRHitTestSource.cancel()`: a TypeError on a null handle, prevented
by the guard in `endARSession`. -/
def cancelHitTestSource (h : Option Bool) : Except String Unit :=
  match h with
  | some _ => Except.ok ()
  | none => Except.error "TypeError: cannot cancel null hit-test source"

/-- Shallow embedding of the teardown routine `endARSession`
(`blog/page.tsx` lines 68-87): each of the four handles is released and
nulled only under its own presence guard, and the active flag is reset
last.  Note the canvas guard tests `canvasRef.current?.parentElement`,
so a present but detached canvas is left untouched. -/
def endARSession (s : ARState) : Except String ARState := do
  let s1 ←
    if s.xrSession.isSome then do
      xrSessionEnd s.xrSession
      pure { s with xrSession := none }
    else pure s
  let s2 := if s1.frame.isSome then { s1 with frame := none } else s1
  let s3 ←
    match s2.canvas with
    | some ch =>
      if ch.hasParent then do
        removeCanvas s2.canvas
        pure { s2 with canvas := none }
      else pure s2
    | none => pure s2
  let s4 ←
    if s3.hitTestSource.isSome then do
      cancelHitTestSource s3.hitTestSource
      pure { s3 with hitTestSource := none }
    else pure s3
  pure { s4 with arSessionActive := false }

/-- The asynchronous setup steps of `launchAR` (`blog/page.tsx` lines
165-256) as they mutate the tracked refs, with one flag per failure
class named by the specification: camera permission, session request,
rendering surface / GL context (including `updateRenderState`),
reference spaces, hit-test source.  A failure throws, carrying the ref
state at the moment of the throw, exactly as the JavaScript exception
leaves the mutated refs for the `catch` block to see.  On success the
animation-frame ref is still `none`: the id of the initial
`session.requestAnimationFrame(onXRFrame)` call is discarded by the
source, and `frameRef` is first written inside the frame callback. -/
def tryLaunchAR (permissionOk sessionOk contextOk refSpaceOk hitTestOk : Bool) :
    Except (String × ARState) ARState := do
  let s := initARState
  if !permissionOk then throw ("camera permission denied", s)
  if !sessionOk then throw ("session request rejected", s)
  let s := { s with xrSession := some true, arSessionActive := true }
  let s := { s with canvas := some { hasParent := true } }
  if !contextOk then throw ("GL context failure", s)
  if !refSpaceOk then throw ("reference space request failed", s)
  if !hitTestOk then throw ("hit-test source request failed", s)
  let s := { s with hitTestSource := some true }
  pure s

/-- The whole `launchAR` routine seen from the host framework: the
single outermost `try/catch` (lines 165-373) turns any setup failure
into a `logDebug` plus a call to the teardown routine, so the caller
always gets a normal return. -/
def launchAR (permissionOk sessionOk contextOk refSpaceOk hitTestOk : Bool) :
    Except String ARState :=
  match tryLaunchAR permissionOk sessionOk contextOk refSpaceOk hitTestOk with
  | Except.ok s => Except.ok s
  | Except.error (_, s) => endARSession s

/-- A pose: the position placed poses carry (`blog/page.tsx` lines
313-316 copy `pose.transform.position`; the fallback sets an explicit
position at lines 326-327). -/
structure Pose where
  px : ℚ
  py : ℚ
  pz : ℚ
deriving DecidableEq

/-- The two placement-relevant occurrences within one AR session: a
`select` gesture carrying the hit-test results available at that frame
(each reduced to its pose), and the firing of the 5000 ms fallback
timer. -/
inductive AREvent where
  | select (results : List Pose)
  | fallback
deriving DecidableEq

/-- The placement state shared by the select handler and the fallback
timer: the `placed` boolean guard (line 306) and the picture group's
adopted pose (`none` until placed). -/
structure PlaceState where
  placed : Bool
  planePose : Option Pose
deriving DecidableEq

/-- The fallback pose computed at lines 326-328: directly in front of
the camera (`z = -2`), horizontally centred, vertically at eye height
minus half the plane height. -/
def fallbackPose (eyeY h : ℚ) : Pose :=
  { px := 0, py := eyeY - h / 2, pz := -2 }

/-- One placement-relevant event processed against the placement state:
the select handler (lines 307-319, guard `results.length && !placed`)
and the fallback timer body (lines 322-331, guard `!placed`), with `fb`
the fallback pose. -/
def placeStep (fb : Pose) (s : PlaceState) (e : AREvent) : PlaceState :=
  match e with
  | AREvent.select results =>
    match results with
    | [] => s
    | p :: _ =>
      if s.placed then s else { placed := true, planePose := some p }
  | AREvent.fallback =>
    if s.placed then s else { placed := true, planePose := some fb }

/-- The placement protocol over a whole session: fold the events in
order, starting unplaced. -/
def runPlacement (fb : Pose) (events : List AREvent) : PlaceState :=
  events.foldl (placeStep fb) { placed := false, planePose := none }

/-! Helper lemmas (shared; none of them is a claim's theorem). -/

theorem magnify_noref (img : Img) (pos : Position) (st mg : Option Dimensions)
    (z : Option ℚ) :
    getMagnifyParams (some img) none pos st mg z =
      some { x := srcXval img none pos st mg z, y := srcYval img none pos st mg z,
             scaleX := safeZoom z, scaleY := safeZoom z,
             sourceWidth := srcWval mg z, sourceHeight := srcHval mg z,
             centerX := centerXval img none pos st,
             centerY := centerYval img none pos st } := rfl

theorem magnify_same (img : Img) (pos : Position) (st mg : Option Dimensions)
    (z : Option ℚ) :
    getMagnifyParams (some img) (some img) pos st mg z =
      some { x := srcXval img (some img) pos st mg z,
             y := srcYval img (some img) pos st mg z,
             scaleX := safeZoom z, scaleY := safeZoom z,
             sourceWidth := srcWval mg z, sourceHeight := srcHval mg z,
             centerX := centerXval img (some img) pos st,
             centerY := centerYval img (some img) pos st } := by
  simp [getMagnifyParams]

theorem magnify_diff (img r : Img) (h : img ≠ r) (pos : Position)
    (st mg : Option Dimensions) (z : Option ℚ) :
    getMagnifyParams (some img) (some r) pos st mg z =
      some { x := srcXval img (some r) pos st mg z * (img.width / r.width),
             y := srcYval img (some r) pos st mg z * (img.height / r.height),
             scaleX := safeZoom z / (img.width / r.width),
             scaleY := safeZoom z / (img.height / r.height),
             sourceWidth := srcWval mg z, sourceHeight := srcHval mg z,
             centerX := centerXval img (some r) pos st,
             centerY := centerYval img (some r) pos st } := by
  simp [getMagnifyParams, h]

theorem half_div_div (s W : ℚ) (hs : s ≠ 0) : s / 2 / (s / W) = W / 2 := by
  rcases eq_or_ne W 0 with hW | hW
  · subst hW; simp
  · field_simp
    ring

theorem centerXval_center (img : Img) (r : Option Img) (sw sh : ℚ)
    (hsw : sw ≠ 0) :
    centerXval img r ⟨sw / 2, sh / 2⟩ (some ⟨sw, sh⟩) = refWidth img r / 2 := by
  have h1 : safeStageW (some ⟨sw, sh⟩) = sw := by
    simp [safeStageW, jsOrQ, hsw]
  simp only [centerXval, h1]
  exact half_div_div sw _ hsw

theorem centerYval_center (img : Img) (r : Option Img) (sw sh : ℚ)
    (hsh : sh ≠ 0) :
    centerYval img r ⟨sw / 2, sh / 2⟩ (some ⟨sw, sh⟩) = refHeight img r / 2 := by
  have h1 : safeStageH (some ⟨sw, sh⟩) = sh := by
    simp [safeStageH, jsOrQ, hsh]
  simp only [centerYval, h1]
  exact half_div_div sh _ hsh

theorem clamp_bounds (c W s : ℚ) (hs : s ≤ W) :
    0 ≤ max 0 (min (c - s / 2) (W - s)) ∧
      max 0 (min (c - s / 2) (W - s)) + s ≤ W := by
  constructor
  · exact le_max_left 0 _
  · have h1 : min (c - s / 2) (W - s) ≤ W - s := min_le_right _ _
    have h2 : max 0 (min (c - s / 2) (W - s)) ≤ W - s :=
      max_le (by linarith) h1
    linarith

theorem scaled_div_eq (S w W : ℚ) (hw : w ≠ 0) : S * (w / W) / w = S / W := by
  rcases eq_or_ne W 0 with hW | hW
  · subst hW; simp
  · field_simp
    ring

theorem placeStep_of_placed (fb : Pose) (s : PlaceState) (e : AREvent)
    (h : s.placed = true) : placeStep fb s e = s := by
  cases e with
  | select results =>
    cases results with
    | nil => rfl
    | cons p ps => simp [placeStep, h]
  | fallback => simp [placeStep, h]

theorem foldl_of_placed (fb : Pose) (l : List AREvent) (s : PlaceState)
    (h : s.placed = true) : l.foldl (placeStep fb) s = s := by
  induction l with
  | nil => rfl
  | cons e t ih =>
    rw [List.foldl_cons, placeStep_of_placed fb s e h]
    exact ih

theorem foldl_ineffective (fb : Pose) (l : List AREvent) (s : PlaceState)
    (h : ∀ e ∈ l, e = AREvent.select []) : l.foldl (placeStep fb) s = s := by
  induction l with
  | nil => rfl
  | cons e t ih =>
    have he := h e (List.mem_cons_self e t)
    subst he
    rw [List.foldl_cons]
    exact ih (fun e' he' => h e' (List.mem_cons_of_mem _ he'))

theorem getMagnifyParams_congr (img : Img) (r : Option Img) (pos : Position)
    (st st' mg mg' : Option Dimensions) (z z' : Option ℚ)
    (h1 : safeStageW st = safeStageW st') (h2 : safeStageH st = safeStageH st')
    (h3 : safeMagW mg = safeMagW mg') (h4 : safeMagH mg = safeMagH mg')
    (h5 : safeZoom z = safeZoom z') :
    getMagnifyParams (some img) r pos st mg z =
      getMagnifyParams (some img) r pos st' mg' z' := by
  simp only [getMagnifyParams, srcXval, srcYval, centerXval, centerYval,
    srcWval, srcHval, h1, h2, h3, h4, h5]

/-! The claim theorems. -/

/-- C1 counterexample: with the magnified image equal to the reference
image (100 by 100), positive zoom 1/2, stage 400 by 300, output 400 by
400, and the pointer at (200, 150) strictly inside the stage, the
sampled region is 800 wide, so the sampled rectangle
`[x, x + sourceWidth]` reaches 800 and is NOT contained in
`[0, referenceWidth] = [0, 100]`: the claimed invariant fails whenever
`magDimensions / zoomScale` exceeds the reference dimensions. -/
theorem magnify_clamp_cex :
    getMagnifyParams (some ⟨100, 100⟩) (some ⟨100, 100⟩) ⟨200, 150⟩
        (some ⟨400, 300⟩) (some ⟨400, 400⟩) (some (1 / 2)) =
      some ⟨0, 0, 1 / 2, 1 / 2, 800, 800, 50, 50⟩ ∧
    ¬((0 : ℚ) + 800 ≤ 100) := by
  constructor
  · simp only [getMagnifyParams, srcXval, srcYval, centerXval, centerYval,
      srcWval, srcHval, safeZoom, safeStageW, safeStageH, safeMagW, safeMagH,
      jsOrQ, refWidth, refHeight, Option.map]
    norm_num [MagnifyParams.mk.injEq]
  · norm_num

/-- C1 (amended): for every pointer position strictly inside the
displayed image bounds, with the magnified image equal to the reference
image and positive zoom, stage and output dimensions, and provided the
sampled region `magDimensions / zoomScale` fits inside the reference
image, the sampled rectangle `[x, x + sourceWidth]` by
`[y, y + sourceHeight]` lies entirely within
`[0, referenceWidth]` by `[0, referenceHeight]`. -/
theorem magnify_clamp_amended (img : Img) (px py stw sth mw mh z : ℚ)
    (hz : 0 < z) (hstw : 0 < stw) (hsth : 0 < sth)
    (hmw : 0 < mw) (hmh : 0 < mh)
    (hpx0 : 0 < px) (hpx1 : px < stw) (hpy0 : 0 < py) (hpy1 : py < sth)
    (hfitw : mw / z ≤ img.width) (hfith : mh / z ≤ img.height) :
    ∃ p, getMagnifyParams (some img) (some img) ⟨px, py⟩ (some ⟨stw, sth⟩)
        (some ⟨mw, mh⟩) (some z) = some p ∧
      0 ≤ p.x ∧ p.x + p.sourceWidth ≤ img.width ∧
      0 ≤ p.y ∧ p.y + p.sourceHeight ≤ img.height := by
  have hz' : z ≠ 0 := ne_of_gt hz
  have hmw' : mw ≠ 0 := ne_of_gt hmw
  have hmh' : mh ≠ 0 := ne_of_gt hmh
  have hW : srcWval (some ⟨mw, mh⟩) (some z) = mw / z := by
    simp [srcWval, safeMagW, safeZoom, jsOrQ, hmw', hz']
  have hH : srcHval (some ⟨mw, mh⟩) (some z) = mh / z := by
    simp [srcHval, safeMagH, safeZoom, jsOrQ, hmh', hz']
  refine ⟨_, magnify_same img ⟨px, py⟩ (some ⟨stw, sth⟩) (some ⟨mw, mh⟩) (some z),
    ?_, ?_, ?_, ?_⟩
  · show 0 ≤ srcXval img (some img) ⟨px, py⟩ (some ⟨stw, sth⟩) (some ⟨mw, mh⟩) (some z)
    exact le_max_left 0 _
  · show srcXval img (some img) ⟨px, py⟩ (some ⟨stw, sth⟩) (some ⟨mw, mh⟩) (some z) +
      srcWval (some ⟨mw, mh⟩) (some z) ≤ img.width
    simp only [srcXval, hW]
    exact (clamp_bounds (centerXval img (some img) ⟨px, py⟩ (some ⟨stw, sth⟩))
      img.width (mw / z) hfitw).2
  · show 0 ≤ srcYval img (some img) ⟨px, py⟩ (some ⟨stw, sth⟩) (some ⟨mw, mh⟩) (some z)
    exact le_max_left 0 _
  · show srcYval img (some img) ⟨px, py⟩ (some ⟨stw, sth⟩) (some ⟨mw, mh⟩) (some z) +
      srcHval (some ⟨mw, mh⟩) (some z) ≤ img.height
    simp only [srcYval, hH]
    exact (clamp_bounds (centerYval img (some img) ⟨px, py⟩ (some ⟨stw, sth⟩))
      img.height (mh / z) hfith).2

/-- C1 witness: the amended clamping bound at a concrete input (1000 by
1000 reference, pointer (200, 150) inside a 400 by 300 stage, sampled
region 800 by 800 fitting the reference). -/
theorem magnify_clamp_amended_witness :
    ∃ p, getMagnifyParams (some ⟨1000, 1000⟩) (some ⟨1000, 1000⟩) ⟨200, 150⟩
        (some ⟨400, 300⟩) (some ⟨400, 400⟩) (some (1 / 2)) = some p ∧
      0 ≤ p.x ∧ p.x + p.sourceWidth ≤ (⟨1000, 1000⟩ : Img).width ∧
      0 ≤ p.y ∧ p.y + p.sourceHeight ≤ (⟨1000, 1000⟩ : Img).height :=
  magnify_clamp_amended ⟨1000, 1000⟩ 200 150 400 300 400 400 (1 / 2)
    (by norm_num) (by norm_num) (by norm_num) (by norm_num) (by norm_num)
    (by norm_num) (by norm_num) (by norm_num) (by norm_num)
    (by norm_num) (by norm_num)

/-- C2: the transform is total over all combinations of present and
absent optional inputs.  It returns `none` exactly when the primary
image handle is absent; with the handle present it always returns a
result, and an absent `stageDimensions`, `magDimensions` or `zoomScale`
produces exactly the result obtained with the documented defaults
400 by 300, 400 by 400, and 0.5 substituted. -/
theorem magnify_total :
    (∀ r pos st mg z, getMagnifyParams none r pos st mg z = none) ∧
    (∀ img r pos st mg z,
      (getMagnifyParams (some img) r pos st mg z).isSome = true) ∧
    (∀ img r pos mg z,
      getMagnifyParams (some img) r pos none mg z =
        getMagnifyParams (some img) r pos (some ⟨400, 300⟩) mg z) ∧
    (∀ img r pos st z,
      getMagnifyParams (some img) r pos st none z =
        getMagnifyParams (some img) r pos st (some ⟨400, 400⟩) z) ∧
    (∀ img r pos st mg,
      getMagnifyParams (some img) r pos st mg none =
        getMagnifyParams (some img) r pos st mg (some (1 / 2))) := by
  refine ⟨fun r pos st mg z => rfl, fun img r pos st mg z => ?_, ?_, ?_, ?_⟩
  · simp [getMagnifyParams]
  · intro img r pos mg z
    exact getMagnifyParams_congr img r pos none (some ⟨400, 300⟩) mg mg z z
      (by norm_num [safeStageW, jsOrQ]) (by norm_num [safeStageH, jsOrQ])
      rfl rfl rfl
  · intro img r pos st z
    exact getMagnifyParams_congr img r pos st st none (some ⟨400, 400⟩) z z
      rfl rfl (by norm_num [safeMagW, jsOrQ]) (by norm_num [safeMagH, jsOrQ])
      rfl
  · intro img r pos st mg
    exact getMagnifyParams_congr img r pos st st mg mg none (some (1 / 2))
      rfl rfl rfl rfl (by norm_num [safeZoom, jsOrQ])

/-- C7: with positive stage dimensions and the pointer at the exact
center of the displayed image, the computed center point is the center
of the reference image (exactly, in rational arithmetic). -/
theorem magnify_center (img : Img) (r : Option Img) (mg : Option Dimensions)
    (z : Option ℚ) (sw sh : ℚ) (hsw : 0 < sw) (hsh : 0 < sh) :
    ∃ p, getMagnifyParams (some img) r ⟨sw / 2, sh / 2⟩ (some ⟨sw, sh⟩) mg z =
        some p ∧
      p.centerX = refWidth img r / 2 ∧ p.centerY = refHeight img r / 2 := by
  have hsw' : sw ≠ 0 := ne_of_gt hsw
  have hsh' : sh ≠ 0 := ne_of_gt hsh
  have hcx := centerXval_center img r sw sh hsw'
  have hcy := centerYval_center img r sw sh hsh'
  cases r with
  | none =>
    exact ⟨_, magnify_noref img ⟨sw / 2, sh / 2⟩ (some ⟨sw, sh⟩) mg z, hcx, hcy⟩
  | some rv =>
    by_cases hir : img = rv
    · subst hir
      exact ⟨_, magnify_same img ⟨sw / 2, sh / 2⟩ (some ⟨sw, sh⟩) mg z, hcx, hcy⟩
    · exact ⟨_, magnify_diff img rv hir ⟨sw / 2, sh / 2⟩ (some ⟨sw, sh⟩) mg z,
        hcx, hcy⟩

/-- C7 witness: the center property at a concrete input (stage 400 by
300, reference image 600 by 400, pointer at (200, 150)). -/
theorem magnify_center_witness :
    ∃ p, getMagnifyParams (some ⟨600, 400⟩) (some ⟨600, 400⟩)
        ⟨400 / 2, 300 / 2⟩ (some ⟨400, 300⟩) (some ⟨400, 400⟩)
        (some (1 / 2)) = some p ∧
      p.centerX = refWidth ⟨600, 400⟩ (some ⟨600, 400⟩) / 2 ∧
      p.centerY = refHeight ⟨600, 400⟩ (some ⟨600, 400⟩) / 2 :=
  magnify_center ⟨600, 400⟩ (some ⟨600, 400⟩) (some ⟨400, 400⟩)
    (some (1 / 2)) 400 300 (by norm_num) (by norm_num)

/-- C10: a zoom scale equal to zero (not merely absent), and likewise
zero-valued stage or output dimensions, are replaced by the documented
defaults 0.5, 400 by 300 and 400 by 400 before computing, so the result
equals the result at the defaults and a result is returned whenever the
image handle is present and the reference dimensions are positive
(every divisor that the computation uses is then nonzero). -/
theorem magnify_zero_defaults (img rimg : Img) (pos : Position)
    (hiw : 0 < img.width) (hih : 0 < img.height)
    (hrw : 0 < rimg.width) (hrh : 0 < rimg.height) :
    getMagnifyParams (some img) (some rimg) pos (some ⟨0, 0⟩) (some ⟨0, 0⟩)
        (some 0) =
      getMagnifyParams (some img) (some rimg) pos (some ⟨400, 300⟩)
        (some ⟨400, 400⟩) (some (1 / 2)) ∧
    (getMagnifyParams (some img) (some rimg) pos (some ⟨0, 0⟩) (some ⟨0, 0⟩)
        (some 0)).isSome = true := by
  constructor
  · exact getMagnifyParams_congr img (some rimg) pos (some ⟨0, 0⟩)
      (some ⟨400, 300⟩) (some ⟨0, 0⟩) (some ⟨400, 400⟩) (some 0)
      (some (1 / 2))
      (by norm_num [safeStageW, jsOrQ]) (by norm_num [safeStageH, jsOrQ])
      (by norm_num [safeMagW, jsOrQ]) (by norm_num [safeMagH, jsOrQ])
      (by norm_num [safeZoom, jsOrQ])
  · simp [getMagnifyParams]

/-- C10 witness: the zero-input defaults at a concrete input. -/
theorem magnify_zero_defaults_witness :
    getMagnifyParams (some ⟨600, 400⟩) (some ⟨300, 200⟩) ⟨10, 10⟩
        (some ⟨0, 0⟩) (some ⟨0, 0⟩) (some 0) =
      getMagnifyParams (some ⟨600, 400⟩) (some ⟨300, 200⟩) ⟨10, 10⟩
        (some ⟨400, 300⟩) (some ⟨400, 400⟩) (some (1 / 2)) ∧
    (getMagnifyParams (some ⟨600, 400⟩) (some ⟨300, 200⟩) ⟨10, 10⟩
        (some ⟨0, 0⟩) (some ⟨0, 0⟩) (some 0)).isSome = true :=
  magnify_zero_defaults ⟨600, 400⟩ ⟨300, 200⟩ ⟨10, 10⟩
    (by norm_num) (by norm_num) (by norm_num) (by norm_num)

/-- C6: two magnified images of different (nonzero) native resolutions,
the same pointer position, the same reference image and the same
remaining inputs identify the same relative region: the ratios
`x / imageWidth` and `y / imageHeight` agree across the two outputs
(exactly, in rational arithmetic). -/
theorem magnify_relative_region (A B r : Img) (pos : Position)
    (st mg : Option Dimensions) (z : Option ℚ)
    (hres : A.width ≠ B.width ∨ A.height ≠ B.height)
    (hAw : A.width ≠ 0) (hAh : A.height ≠ 0)
    (hBw : B.width ≠ 0) (hBh : B.height ≠ 0)
    (pA pB : MagnifyParams)
    (hA : getMagnifyParams (some A) (some r) pos st mg z = some pA)
    (hB : getMagnifyParams (some B) (some r) pos st mg z = some pB) :
    pA.x / A.width = pB.x / B.width ∧ pA.y / A.height = pB.y / B.height := by
  have key : ∀ (X : Img) (pX : MagnifyParams), X.width ≠ 0 → X.height ≠ 0 →
      getMagnifyParams (some X) (some r) pos st mg z = some pX →
      pX.x / X.width = srcXval r (some r) pos st mg z / r.width ∧
      pX.y / X.height = srcYval r (some r) pos st mg z / r.height := by
    intro X pX hw hh hX
    by_cases hXr : X = r
    · subst hXr
      rw [magnify_same] at hX
      obtain rfl := Option.some.inj hX
      exact ⟨rfl, rfl⟩
    · rw [magnify_diff X r hXr] at hX
      obtain rfl := Option.some.inj hX
      constructor
      · exact scaled_div_eq (srcXval X (some r) pos st mg z) X.width r.width hw
      · exact scaled_div_eq (srcYval X (some r) pos st mg z) X.height r.height hh
  obtain ⟨hA1, hA2⟩ := key A pA hAw hAh hA
  obtain ⟨hB1, hB2⟩ := key B pB hBw hBh hB
  exact ⟨hA1.trans hB1.symm, hA2.trans hB2.symm⟩

/-- C6 witness: a concrete pair of differently-sized magnified images
(100 by 100 and 200 by 50) against a 400 by 300 reference with zoom 2:
the outputs are (x, y) = (25, 50/3) and (50, 25/3), and both ratio
pairs equal (1/4, 1/6). -/
theorem magnify_relative_region_witness :
    ((⟨25, 50 / 3, 8, 6, 200, 200, 200, 150⟩ : MagnifyParams).x /
        (⟨100, 100⟩ : Img).width =
      (⟨50, 25 / 3, 4, 12, 200, 200, 200, 150⟩ : MagnifyParams).x /
        (⟨200, 50⟩ : Img).width) ∧
    ((⟨25, 50 / 3, 8, 6, 200, 200, 200, 150⟩ : MagnifyParams).y /
        (⟨100, 100⟩ : Img).height =
      (⟨50, 25 / 3, 4, 12, 200, 200, 200, 150⟩ : MagnifyParams).y /
        (⟨200, 50⟩ : Img).height) :=
  magnify_relative_region ⟨100, 100⟩ ⟨200, 50⟩ ⟨400, 300⟩ ⟨200, 150⟩
    (some ⟨400, 300⟩) (some ⟨400, 400⟩) (some 2)
    (Or.inl (by norm_num)) (by norm_num) (by norm_num) (by norm_num)
    (by norm_num)
    ⟨25, 50 / 3, 8, 6, 200, 200, 200, 150⟩
    ⟨50, 25 / 3, 4, 12, 200, 200, 200, 150⟩
    (by norm_num [getMagnifyParams, srcXval, srcYval, centerXval, centerYval,
      srcWval, srcHval, safeZoom, safeStageW, safeStageH, safeMagW, safeMagH,
      jsOrQ, refWidth, refHeight, Option.map, Img.mk.injEq,
      MagnifyParams.mk.injEq])
    (by norm_num [getMagnifyParams, srcXval, srcYval, centerXval, centerYval,
      srcWval, srcHval, safeZoom, safeStageW, safeStageH, safeMagW, safeMagH,
      jsOrQ, refWidth, refHeight, Option.map, Img.mk.injEq,
      MagnifyParams.mk.injEq])

/-- C8 counterexample: with container width 100 and a loaded 600 by 400
image, the recomputed stage is 100 by 66 (`Math.floor` of 200/3), and
66/100 differs from 400/600: the aspect ratio is not preserved
exactly. -/
theorem stage_aspect_cex :
    updateDimensions 100 ⟨600, 400⟩ = ⟨100, 66⟩ ∧
    ¬((66 : ℚ) / 100 = 400 / 600) := by
  constructor
  · simp only [updateDimensions]
    norm_num [Dimensions.mk.injEq]
  · norm_num

/-- C8 (amended): for every positive container width and every loaded
image with positive natural dimensions, and provided the exact height
`containerWidth * imageHeight / imageWidth` is at least 1 (so the
`|| 300` fallback for a zero floor does not fire), the recomputation
sets the stage width to the container width and the stage height to the
floor of the exact height: the aspect ratio is preserved only up to
rounding the height down to a whole pixel (the height is within 1 below
the exact value). -/
theorem stage_aspect_amended (cw : ℚ) (imgDims : Dimensions)
    (hcw : 0 < cw) (hiw : 0 < imgDims.width) (hih : 0 < imgDims.height)
    (h1 : 1 ≤ cw * imgDims.height / imgDims.width) :
    (updateDimensions cw imgDims).width = cw ∧
    (updateDimensions cw imgDims).height =
      ((⌊cw * imgDims.height / imgDims.width⌋ : ℤ) : ℚ) ∧
    cw * imgDims.height / imgDims.width - 1 <
      (updateDimensions cw imgDims).height ∧
    (updateDimensions cw imgDims).height ≤
      cw * imgDims.height / imgDims.width := by
  have hcw' : cw ≠ 0 := ne_of_gt hcw
  have hiw' : imgDims.width ≠ 0 := ne_of_gt hiw
  have hih' : imgDims.height ≠ 0 := ne_of_gt hih
  have hfl : (1 : ℤ) ≤ ⌊cw * imgDims.height / imgDims.width⌋ := by
    rw [Int.le_floor]
    exact_mod_cast h1
  have hfl0 : ((⌊cw * imgDims.height / imgDims.width⌋ : ℤ) : ℚ) ≠ 0 := by
    have h2 : (0 : ℤ) < ⌊cw * imgDims.height / imgDims.width⌋ := by omega
    exact_mod_cast h2.ne'
  have hupd : updateDimensions cw imgDims =
      ⟨cw, ((⌊cw * imgDims.height / imgDims.width⌋ : ℤ) : ℚ)⟩ := by
    simp only [updateDimensions, if_neg hcw', if_neg hiw', if_neg hih',
      if_neg hfl0]
  rw [hupd]
  refine ⟨rfl, rfl, ?_, ?_⟩
  · exact Int.sub_one_lt_floor _
  · exact Int.floor_le _

/-- C8 witness: the amended recomputation at container width 800 and a
600 by 400 image: stage 800 by 533 with 533 = floor(1600/3). -/
theorem stage_aspect_amended_witness :
    (updateDimensions 800 ⟨600, 400⟩).width = 800 ∧
    (updateDimensions 800 ⟨600, 400⟩).height =
      ((⌊(800 : ℚ) * 400 / 600⌋ : ℤ) : ℚ) ∧
    (800 : ℚ) * 400 / 600 - 1 < (updateDimensions 800 ⟨600, 400⟩).height ∧
    (updateDimensions 800 ⟨600, 400⟩).height ≤ (800 : ℚ) * 400 / 600 :=
  stage_aspect_amended 800 ⟨600, 400⟩ (by norm_num) (by norm_num)
    (by norm_num) (by norm_num)

/-- C3: the teardown routine is idempotent and safe on partial
initialization.  From any state in which each handle is either
never-acquired (`none`) or acquired the way `launchAR` acquires it (in
particular, an acquired canvas is attached to the document), one
invocation returns without error and leaves all four tracked handles
null and the active flag reset, and a second invocation in a row also
returns without error and changes nothing. -/
theorem endARSession_idem (s : ARState)
    (hc : s.canvas = none ∨ s.canvas = some ⟨true⟩) :
    endARSession s = Except.ok initARState ∧
      endARSession initARState = Except.ok initARState := by
  obtain ⟨xs, fr, cv, ht, act⟩ := s
  refine ⟨?_, rfl⟩
  rcases hc with hc | hc <;> simp only at hc <;> subst hc <;>
    cases xs <;> cases fr <;> cases ht <;> cases act <;> rfl

/-- C3 witness: teardown twice from a fully initialized session
state. -/
theorem endARSession_idem_witness :
    endARSession ⟨some true, some 7, some ⟨true⟩, some true, true⟩ =
        Except.ok initARState ∧
      endARSession initARState = Except.ok initARState :=
  endARSession_idem ⟨some true, some 7, some ⟨true⟩, some true, true⟩
    (Or.inr rfl)

/-- C9: whichever asynchronous setup step fails (camera permission,
session request, GL context, reference spaces, hit-test source), the
launch routine returns normally -- the failure is caught by the single
outermost try/catch and never escapes -- and the catch block resolves it
by running the teardown routine, leaving every tracked handle null and
the session inactive; only when every step succeeds does the routine
leave the session resources in place. -/
theorem launchAR_failures_caught (p q c r h : Bool) :
    launchAR p q c r h =
      Except.ok (if p && q && c && r && h then
          ⟨some true, none, some ⟨true⟩, some true, true⟩
        else initARState) := by
  cases p <;> cases q <;> cases c <;> cases r <;> cases h <;> rfl

/-- C9 witness: a failing hit-test step is caught and resolved by full
teardown. -/
theorem launchAR_failures_caught_witness :
    launchAR true true true true false =
      Except.ok (if true && true && true && true && false then
          ⟨some true, none, some ⟨true⟩, some true, true⟩
        else initARState) :=
  launchAR_failures_caught true true true true false

/-- C4: within one AR session, if -- after any number of select
gestures with empty hit-test results -- a select gesture with a
non-empty hit-test result occurs before the fallback timer fires, the
plane adopts the first result's pose, the later fallback firing has no
effect, and the pose never changes again for the remainder of the
session (the final state is the same whatever events follow). -/
theorem ar_select_first (fb p : Pose) (rest : List Pose)
    (pre mid post : List AREvent)
    (hpre : ∀ e ∈ pre, e = AREvent.select []) :
    runPlacement fb
        (pre ++ AREvent.select (p :: rest) ::
          (mid ++ AREvent.fallback :: post)) =
      { placed := true, planePose := some p } := by
  unfold runPlacement
  rw [List.foldl_append, foldl_ineffective fb pre _ hpre, List.foldl_cons]
  have h1 : placeStep fb { placed := false, planePose := none }
      (AREvent.select (p :: rest)) = { placed := true, planePose := some p } :=
    rfl
  rw [h1]
  exact foldl_of_placed fb _ _ rfl

/-- C4 witness: an empty-result gesture, then a successful gesture at
pose (1, 2, 3), another gesture, the fallback firing, and a further
gesture: the plane stays at (1, 2, 3). -/
theorem ar_select_first_witness :
    runPlacement ⟨0, 0, -2⟩
        ([AREvent.select []] ++ AREvent.select [⟨1, 2, 3⟩] ::
          ([AREvent.select [⟨9, 9, 9⟩]] ++ AREvent.fallback ::
            [AREvent.select [⟨8, 8, 8⟩]])) =
      { placed := true, planePose := some ⟨1, 2, 3⟩ } :=
  ar_select_first ⟨0, 0, -2⟩ ⟨1, 2, 3⟩ [] [AREvent.select []]
    [AREvent.select [⟨9, 9, 9⟩]] [AREvent.select [⟨8, 8, 8⟩]] (by decide)

/-- C5: if no select gesture before the fallback timer produces a
hit-test result, the firing of the timer places the plane exactly once
at the fallback pose -- directly in front of the camera (z = -2),
centred at eye height minus half the plane height -- and no later event
moves it. -/
theorem ar_fallback_placement (eyeY ph : ℚ) (pre post : List AREvent)
    (hpre : ∀ e ∈ pre, e = AREvent.select []) :
    runPlacement (fallbackPose eyeY ph) (pre ++ AREvent.fallback :: post) =
      { placed := true, planePose := some (fallbackPose eyeY ph) } := by
  unfold runPlacement
  rw [List.foldl_append, foldl_ineffective _ pre _ hpre, List.foldl_cons]
  have h1 : placeStep (fallbackPose eyeY ph)
      { placed := false, planePose := none } AREvent.fallback =
      { placed := true, planePose := some (fallbackPose eyeY ph) } := rfl
  rw [h1]
  exact foldl_of_placed _ _ _ rfl

/-- C5 witness: two empty-result gestures, the fallback firing at eye
height 1.6 with a plane 0.2 units tall, then a further gesture: the
plane is at the fallback pose. -/
theorem ar_fallback_placement_witness :
    runPlacement (fallbackPose (8 / 5) (1 / 5))
        ([AREvent.select [], AREvent.select []] ++ AREvent.fallback ::
          [AREvent.select [⟨9, 9, 9⟩]]) =
      { placed := true, planePose := some (fallbackPose (8 / 5) (1 / 5)) } :=
  ar_fallback_placement (8 / 5) (1 / 5) [AREvent.select [], AREvent.select []]
    [AREvent.select [⟨9, 9, 9⟩]] (by decide)
